import Mathlib

/-!
Shallow embedding of the risk-control subsystem of the AI-Trader repository
(`risk_control/circuit_breaker.py`, `risk_control/drawdown_monitor.py`,
`risk_control/slippage_checker.py`, `risk_control/risk_manager.py`).

Python floats are modelled as rationals, wall-clock instants
(`datetime.now()`) as rationals counting seconds, and calendar days
(`date.today()`) as naturals; operations that read the clock or the calendar
take them as explicit parameters.  Mutation is modelled by state passing: a
method that mutates `self` returns the new state (paired with its Python
return value when it has one).  Numeric interpolation inside log/message
strings is elided; the fixed prefix of each message is kept.  Thread locks,
logging and callback dispatch do not affect the returned values or the
mutated state and are not modelled.
-/

namespace AITrader

/-- Python enum `CircuitBreakerState` (circuit_breaker.py).  `OPEN` is
rendered `opened` because `open` is a Lean keyword. -/
inductive CircuitBreakerState where
  | closed
  | opened
  | halfOpen
deriving DecidableEq

/-- Python dataclass `CircuitBreakerConfig` (circuit_breaker.py); its field
defaults (0.03, 0.01, 5, 300, 1, True) are written out at construction
sites. -/
structure CircuitBreakerConfig where
  daily_loss_threshold : ℚ
  single_loss_threshold : ℚ
  consecutive_loss_count : ℕ
  recovery_time : ℚ
  half_open_order_limit : ℕ
  auto_recover : Bool
deriving DecidableEq

/-- Python dataclass `TradingStats` (circuit_breaker.py). -/
structure TradingStats where
  date : ℕ
  initial_equity : ℚ
  current_equity : ℚ
  high_watermark : ℚ
  total_pnl : ℚ
  realized_pnl : ℚ
  unrealized_pnl : ℚ
  trade_count : ℕ
  win_count : ℕ
  loss_count : ℕ
  consecutive_losses : ℕ
deriving DecidableEq

/-- Property `TradingStats.daily_return`. -/
def TradingStats.daily_return (s : TradingStats) : ℚ :=
  if s.initial_equity > 0 then (s.current_equity - s.initial_equity) / s.initial_equity
  else 0

/-- Property `TradingStats.drawdown`. -/
def TradingStats.drawdown (s : TradingStats) : ℚ :=
  if s.high_watermark > 0 then (s.high_watermark - s.current_equity) / s.high_watermark
  else 0

/-- The statistics mutation performed inside `CircuitBreaker.update_equity`
(circuit_breaker.py lines 136-158): set current equity, raise the high
watermark, recompute total PnL, account the optional trade PnL, and
recompute unrealized PnL. -/
def TradingStats.apply (s : TradingStats) (current_equity : ℚ)
    (trade_pnl : Option ℚ) : TradingStats :=
  let s1 := { s with current_equity := current_equity }
  let s2 :=
    if current_equity > s1.high_watermark then { s1 with high_watermark := current_equity }
    else s1
  let s3 := { s2 with total_pnl := current_equity - s2.initial_equity }
  let s4 :=
    match trade_pnl with
    | none => s3
    | some pnl =>
      let t := { s3 with trade_count := s3.trade_count + 1,
                         realized_pnl := s3.realized_pnl + pnl }
      if pnl > 0 then { t with win_count := t.win_count + 1, consecutive_losses := 0 }
      else if pnl < 0 then
        { t with loss_count := t.loss_count + 1,
                 consecutive_losses := t.consecutive_losses + 1 }
      else t
  { s4 with unrealized_pnl := s4.total_pnl - s4.realized_pnl }

/-- Fixed prefix of the daily-loss trip message (circuit_breaker.py line
173). -/
def msgDailyLoss : String := "Daily loss exceeded"

/-- Fixed prefix of the consecutive-loss trip message (circuit_breaker.py
line 179). -/
def msgConsecutive : String := "Consecutive losses"

/-- Python class `CircuitBreaker` (circuit_breaker.py): mutable state. -/
structure CircuitBreaker where
  config : CircuitBreakerConfig
  state : CircuitBreakerState
  stats : TradingStats
  tripped_time : Option ℚ
  half_open_orders : ℕ
  trip_reason : Option String
deriving DecidableEq

namespace CircuitBreaker

/-- Python `CircuitBreaker.__init__(config)`: state CLOSED, fresh
`TradingStats()` (all-zero, dated `today`), no trip recorded. -/
def mk_new (config : CircuitBreakerConfig) (today : ℕ) : CircuitBreaker :=
  ⟨config, .closed, ⟨today, 0, 0, 0, 0, 0, 0, 0, 0, 0, 0⟩, none, 0, none⟩

/-- Python `CircuitBreaker.initialize(initial_equity)` (circuit_breaker.py
lines 112-126). -/
def init_equity (cb : CircuitBreaker) (today : ℕ) (initial_equity : ℚ) :
    CircuitBreaker :=
  { cb with
    stats := ⟨today, initial_equity, initial_equity, initial_equity, 0, 0, 0, 0, 0, 0, 0⟩,
    state := .closed,
    tripped_time := none,
    trip_reason := none,
    half_open_orders := 0 }

/-- Python `CircuitBreaker._trip(reason)` (circuit_breaker.py lines
182-190): go OPEN and record the trip instant and reason. -/
def trip (cb : CircuitBreaker) (now : ℚ) (reason : String) : CircuitBreaker :=
  { cb with state := .opened, tripped_time := some now, trip_reason := some reason }

/-- Python `CircuitBreaker._check_recovery()` (circuit_breaker.py lines
192-206): once `recovery_time` has elapsed since the trip, an OPEN breaker
moves to HALF_OPEN with the trial counter reset to zero. -/
def check_recovery (cb : CircuitBreaker) (now : ℚ) : CircuitBreaker :=
  match cb.tripped_time with
  | none => cb
  | some t =>
    if now - t ≥ cb.config.recovery_time then
      if cb.state = .opened then
        { cb with state := .halfOpen, half_open_orders := 0 }
      else cb
    else cb

/-- Python `CircuitBreaker._check_triggers()` (circuit_breaker.py lines
163-180): when OPEN, only (auto-)recovery is checked; otherwise trip on the
daily-loss rule, then on the consecutive-loss rule. -/
def check_triggers (cb : CircuitBreaker) (now : ℚ) : CircuitBreaker :=
  if cb.state = .opened then
    if cb.config.auto_recover then cb.check_recovery now else cb
  else if cb.stats.daily_return ≤ -cb.config.daily_loss_threshold then
    cb.trip now msgDailyLoss
  else if cb.stats.consecutive_losses ≥ cb.config.consecutive_loss_count then
    cb.trip now msgConsecutive
  else cb

/-- Python `CircuitBreaker.update_equity(current_equity, trade_pnl)`
(circuit_breaker.py lines 128-161): on a date change re-initialize for the
new day, otherwise mutate the statistics and run the trigger check. -/
def update_equity (cb : CircuitBreaker) (today : ℕ) (now : ℚ)
    (current_equity : ℚ) (trade_pnl : Option ℚ) : CircuitBreaker :=
  if cb.stats.date ≠ today then cb.init_equity today current_equity
  else ({ cb with stats := cb.stats.apply current_equity trade_pnl }).check_triggers now

/-- Python `CircuitBreaker.can_trade()` (circuit_breaker.py lines 208-222):
runs `_check_recovery` unconditionally, then CLOSED allows, HALF_OPEN allows
while the trial counter is below `half_open_order_limit` (consuming a slot),
OPEN denies.  Returns the Python boolean paired with the mutated breaker. -/
def can_trade (cb : CircuitBreaker) (now : ℚ) : Bool × CircuitBreaker :=
  let cb1 := cb.check_recovery now
  match cb1.state with
  | .closed => (true, cb1)
  | .halfOpen =>
    if cb1.half_open_orders < cb1.config.half_open_order_limit then
      (true, { cb1 with half_open_orders := cb1.half_open_orders + 1 })
    else (false, cb1)
  | .opened => (false, cb1)

/-- Python `CircuitBreaker.record_half_open_result(success)`
(circuit_breaker.py lines 224-239). -/
def record_half_open_result (cb : CircuitBreaker) (now : ℚ) (success : Bool) :
    CircuitBreaker :=
  if cb.state ≠ .halfOpen then cb
  else if success then
    { cb with state := .closed, tripped_time := none, trip_reason := none }
  else
    { cb with state := .opened, tripped_time := some now }

/-- State after `n` successive `can_trade()` polls, all at instant `now`. -/
def can_trade_iter (cb : CircuitBreaker) (now : ℚ) : ℕ → CircuitBreaker
  | 0 => cb
  | n + 1 => ((cb.can_trade_iter now n).can_trade now).2

end CircuitBreaker

/-- Python enum `DrawdownAlertLevel` (drawdown_monitor.py). -/
inductive DrawdownAlertLevel where
  | normal
  | warning
  | critical
  | exceeded
deriving DecidableEq

/-- Python dataclass `DrawdownAlert` (drawdown_monitor.py); the `timestamp`
field is elided. -/
structure DrawdownAlert where
  level : DrawdownAlertLevel
  current_drawdown : ℚ
  peak_equity : ℚ
  current_equity : ℚ
  threshold : ℚ
  message : String
deriving DecidableEq

/-- Python dataclass `DrawdownConfig` (drawdown_monitor.py); defaults
(0.15, 0.05, 0.10, True, 0) are written out at construction sites. -/
structure DrawdownConfig where
  max_drawdown : ℚ
  warning_threshold : ℚ
  critical_threshold : ℚ
  auto_stop_on_exceed : Bool
  rolling_window_days : ℕ
deriving DecidableEq

/-- Python class `DrawdownMonitor` (drawdown_monitor.py): mutable state.
History entries are (equity, drawdown); their timestamps are elided. -/
structure DrawdownMonitor where
  config : DrawdownConfig
  peak_equity : ℚ
  current_equity : ℚ
  initial_equity : ℚ
  current_drawdown : ℚ
  max_recorded_drawdown : ℚ
  exceeded : Bool
  history : List (ℚ × ℚ)
deriving DecidableEq

namespace DrawdownMonitor

/-- Python `DrawdownMonitor.__init__(config)`. -/
def mk_new (config : DrawdownConfig) : DrawdownMonitor :=
  ⟨config, 0, 0, 0, 0, 0, false, []⟩

/-- Python `DrawdownMonitor.initialize(initial_equity)` (drawdown_monitor.py
lines 81-92). -/
def init_equity (m : DrawdownMonitor) (initial_equity : ℚ) : DrawdownMonitor :=
  { m with
    initial_equity := initial_equity,
    peak_equity := initial_equity,
    current_equity := initial_equity,
    current_drawdown := 0,
    max_recorded_drawdown := 0,
    exceeded := false,
    history := [] }

/-- Python `DrawdownMonitor._check_thresholds()` (drawdown_monitor.py lines
128-163): classify from most to least severe; only the EXCEEDED branch
mutates (it sets the sticky `exceeded` flag). -/
def check_thresholds (m : DrawdownMonitor) : DrawdownMonitor × Option DrawdownAlert :=
  if m.current_drawdown ≥ m.config.max_drawdown then
    ({ m with exceeded := true },
     some ⟨.exceeded, m.current_drawdown, m.peak_equity, m.current_equity,
           m.config.max_drawdown, "CRITICAL: Drawdown exceeded max threshold"⟩)
  else if m.current_drawdown ≥ m.config.critical_threshold then
    (m, some ⟨.critical, m.current_drawdown, m.peak_equity, m.current_equity,
              m.config.critical_threshold, "Critical drawdown alert"⟩)
  else if m.current_drawdown ≥ m.config.warning_threshold then
    (m, some ⟨.warning, m.current_drawdown, m.peak_equity, m.current_equity,
              m.config.warning_threshold, "Drawdown warning"⟩)
  else (m, none)

/-- Python `DrawdownMonitor.update(current_equity)` (drawdown_monitor.py
lines 94-126): set equity, raise the peak, recompute the drawdown (0 when
the peak is not positive), track the maximum recorded drawdown, append to
the history (trimmed to the last 5000 entries past 10000), then run the
threshold check.  Returns the mutated monitor with the optional alert. -/
def update (m : DrawdownMonitor) (current_equity : ℚ) :
    DrawdownMonitor × Option DrawdownAlert :=
  let m1 := { m with current_equity := current_equity }
  let m2 :=
    if current_equity > m1.peak_equity then { m1 with peak_equity := current_equity }
    else m1
  let dd :=
    if m2.peak_equity > 0 then (m2.peak_equity - current_equity) / m2.peak_equity
    else 0
  let m3 := { m2 with current_drawdown := dd }
  let m4 :=
    if dd > m3.max_recorded_drawdown then { m3 with max_recorded_drawdown := dd }
    else m3
  let h1 := m4.history ++ [(current_equity, dd)]
  let m5 := { m4 with history := if h1.length > 10000 then h1.drop (h1.length - 5000) else h1 }
  m5.check_thresholds

/-- Python `DrawdownMonitor.can_trade()` (drawdown_monitor.py lines
188-192). -/
def can_trade (m : DrawdownMonitor) : Bool :=
  if m.config.auto_stop_on_exceed && m.exceeded then false else true

/-- Python `DrawdownMonitor.reset_exceeded()` (drawdown_monitor.py lines
194-198). -/
def reset_exceeded (m : DrawdownMonitor) : DrawdownMonitor :=
  { m with exceeded := false }

/-- Monitor state after a sequence of `update` calls (alerts discarded). -/
def updates (m : DrawdownMonitor) (es : List ℚ) : DrawdownMonitor :=
  es.foldl (fun s e => (s.update e).1) m

end DrawdownMonitor

/-- Python dataclass `SlippageConfig` (slippage_checker.py); defaults
(0.002, 0.001, False, 100) are written out at construction sites. -/
structure SlippageConfig where
  max_slippage : ℚ
  warning_threshold : ℚ
  reject_high_slippage : Bool
  stats_window_size : ℕ
deriving DecidableEq

/-- Python dataclass `SlippageViolation` (slippage_checker.py); the
`timestamp` field is elided. -/
structure SlippageViolation where
  symbol : String
  expected_price : ℚ
  executed_price : ℚ
  slippage : ℚ
  threshold : ℚ
  order_id : Option String
deriving DecidableEq

/-- Python property `SlippageViolation.is_violation` (slippage_checker.py
lines 28-30): strict comparison of the absolute slippage to the threshold. -/
def SlippageViolation.is_violation (v : SlippageViolation) : Bool :=
  |v.slippage| > v.threshold

/-- Python class `SlippageChecker` (slippage_checker.py): mutable state. -/
structure SlippageChecker where
  config : SlippageConfig
  violations : List SlippageViolation
  all_slippages : List ℚ
  total_orders : ℕ
  violation_count : ℕ
  total_slippage : ℚ
deriving DecidableEq

namespace SlippageChecker

/-- Python `SlippageChecker.__init__(config)`. -/
def mk_new (config : SlippageConfig) : SlippageChecker :=
  ⟨config, [], [], 0, 0, 0⟩

/-- Python `SlippageChecker.check_slippage(symbol, expected_price,
executed_price, order_id)` (slippage_checker.py lines 77-136): signed
slippage relative to the expected price (0 on a non-positive expected
price), violation record built from it, rolling-window and violation-list
bookkeeping.  Returns the record paired with the mutated checker.
Arithmetic is modelled over exact rationals; the Python program computes in
IEEE-754 binary64, whose rounding this model does not capture.  Where that
difference is decisive — the slippage boundary at expected 100.0, executed
100.2, threshold 0.002 — the binary64 evaluation is modelled separately
below (`fl_boundary_slippage` and friends). -/
def check_slippage (c : SlippageChecker) (symbol : String)
    (expected_price executed_price : ℚ) (order_id : Option String) :
    SlippageViolation × SlippageChecker :=
  let slippage :=
    if expected_price > 0 then (executed_price - expected_price) / expected_price
    else 0
  let v : SlippageViolation :=
    ⟨symbol, expected_price, executed_price, slippage, c.config.max_slippage, order_id⟩
  let a1 := c.all_slippages ++ [|slippage|]
  let a2 :=
    if a1.length > c.config.stats_window_size then a1.drop (a1.length - c.config.stats_window_size)
    else a1
  let c1 := { c with total_orders := c.total_orders + 1,
                     total_slippage := c.total_slippage + |slippage|,
                     all_slippages := a2 }
  let c2 :=
    if v.is_violation then
      let vs := c1.violations ++ [v]
      let vs2 := if vs.length > 1000 then vs.drop (vs.length - 500) else vs
      { c1 with violation_count := c1.violation_count + 1, violations := vs2 }
    else c1
  (v, c2)

end SlippageChecker

/-- Python enum `RiskLevel` (risk_manager.py). -/
inductive RiskLevel where
  | low
  | medium
  | high
  | critical
  | halted
deriving DecidableEq

/-- Python dataclass `RiskConfig` (risk_manager.py); defaults are written
out at construction sites. -/
structure RiskConfig where
  daily_loss_threshold : ℚ
  single_loss_threshold : ℚ
  consecutive_loss_count : ℕ
  recovery_time : ℚ
  max_drawdown : ℚ
  warning_drawdown : ℚ
  critical_drawdown : ℚ
  max_slippage : ℚ
  slippage_warning : ℚ
  reject_high_slippage : Bool
  max_position_pct : ℚ
  max_leverage : ℚ
  max_order_value : ℚ
  min_order_interval : ℚ
  max_orders_per_minute : ℕ
  allow_premarket : Bool
  allow_afterhours : Bool
deriving DecidableEq

/-- Python dataclass `RiskCheckResult` (risk_manager.py); the `timestamp`
field is elided. -/
structure RiskCheckResult where
  allowed : Bool
  risk_level : RiskLevel
  reasons : List String
  warnings : List String
deriving DecidableEq

/-- Python class `RiskManager` (risk_manager.py): mutable state. -/
structure RiskManager where
  config : RiskConfig
  circuit_breaker : CircuitBreaker
  drawdown_monitor : DrawdownMonitor
  slippage_checker : SlippageChecker
  order_timestamps : List ℚ
  last_order_time : ℚ
deriving DecidableEq

namespace RiskManager

/-- Python `RiskManager.__init__(config)` (risk_manager.py lines 91-123):
builds the three sub-modules from the supplied `RiskConfig`, filling the
sub-config fields the constructor does not pass with their dataclass
defaults.  The constructor performs no validation of the configuration
values. -/
def mk_new (config : RiskConfig) (today : ℕ) : RiskManager :=
  { config := config,
    circuit_breaker := CircuitBreaker.mk_new
      ⟨config.daily_loss_threshold, config.single_loss_threshold,
       config.consecutive_loss_count, config.recovery_time, 1, true⟩ today,
    drawdown_monitor := DrawdownMonitor.mk_new
      ⟨config.max_drawdown, config.warning_drawdown, config.critical_drawdown, true, 0⟩,
    slippage_checker := SlippageChecker.mk_new
      ⟨config.max_slippage, config.slippage_warning, config.reject_high_slippage, 100⟩,
    order_timestamps := [],
    last_order_time := 0 }

/-- Python `RiskManager.initialize(initial_equity)` (risk_manager.py lines
146-150). -/
def init_equity (rm : RiskManager) (today : ℕ) (initial_equity : ℚ) : RiskManager :=
  { rm with
    circuit_breaker := rm.circuit_breaker.init_equity today initial_equity,
    drawdown_monitor := rm.drawdown_monitor.init_equity initial_equity }

/-- Python `RiskManager.update_equity(current_equity, trade_pnl)`
(risk_manager.py lines 152-155). -/
def update_equity (rm : RiskManager) (today : ℕ) (now : ℚ) (current_equity : ℚ)
    (trade_pnl : Option ℚ) : RiskManager :=
  { rm with
    circuit_breaker := rm.circuit_breaker.update_equity today now current_equity trade_pnl,
    drawdown_monitor := (rm.drawdown_monitor.update current_equity).1 }

/-- Python `RiskManager.pre_trade_check(symbol, side, quantity, price,
current_position_value, total_equity)` (risk_manager.py lines 157-245):
the checks in source order — circuit breaker, drawdown monitor, minimum
order interval, orders-per-minute cap (pruning the timestamp window as a
side effect), order value, position fraction (only when `total_equity > 0`,
adding the order value to the position only for side `"long"`) — each
rejecting immediately, then the drawdown-derived risk level and warnings on
the accepting result.  Returns the result paired with the mutated
manager. -/
def pre_trade_check (rm : RiskManager) (now : ℚ) (symbol : String) (side : String)
    (quantity : ℤ) (price : ℚ) (current_position_value : ℚ) (total_equity : ℚ) :
    RiskCheckResult × RiskManager :=
  let cbp := rm.circuit_breaker.can_trade now
  let rm1 := { rm with circuit_breaker := cbp.2 }
  if cbp.1 = false then
    (⟨false, .halted, ["Circuit breaker is open"], []⟩, rm1)
  else if rm1.drawdown_monitor.can_trade = false then
    (⟨false, .halted, ["Drawdown exceeded"], []⟩, rm1)
  else if now - rm1.last_order_time < rm1.config.min_order_interval then
    (⟨false, .high, ["Order interval too short"], []⟩, rm1)
  else
    let ts := rm1.order_timestamps.filter fun t => now - t < 60
    let rm2 := { rm1 with order_timestamps := ts }
    if ts.length ≥ rm2.config.max_orders_per_minute then
      (⟨false, .high, ["Max orders per minute exceeded"], []⟩, rm2)
    else
      let order_value := (quantity : ℚ) * price
      if order_value > rm2.config.max_order_value then
        (⟨false, .high, ["Order value exceeds max"], []⟩, rm2)
      else if total_equity > 0 ∧
          (if side = "long" then current_position_value + order_value
           else current_position_value) / total_equity > rm2.config.max_position_pct then
        (⟨false, .high, ["Position would exceed max"], []⟩, rm2)
      else
        let dd := rm2.drawdown_monitor.current_drawdown
        if dd ≥ rm2.config.critical_drawdown then
          (⟨true, .high, [], ["High drawdown"]⟩, rm2)
        else if dd ≥ rm2.config.warning_drawdown then
          (⟨true, .medium, [], ["Elevated drawdown"]⟩, rm2)
        else (⟨true, .low, [], []⟩, rm2)

end RiskManager

/-! ### Circuit-breaker lemmas -/

lemma CircuitBreaker.check_recovery_of_ne_opened (cb : CircuitBreaker) (now : ℚ)
    (h : cb.state ≠ .opened) : cb.check_recovery now = cb := by
  unfold CircuitBreaker.check_recovery
  cases htt : cb.tripped_time with
  | none => rfl
  | some t => simp [h]

lemma CircuitBreaker.check_recovery_some (cb : CircuitBreaker) (now t : ℚ)
    (ht : cb.tripped_time = some t) :
    cb.check_recovery now =
      if now - t ≥ cb.config.recovery_time then
        if cb.state = .opened then { cb with state := .halfOpen, half_open_orders := 0 }
        else cb
      else cb := by
  unfold CircuitBreaker.check_recovery
  rw [ht]

lemma CircuitBreaker.update_equity_same_day (cb : CircuitBreaker) (today : ℕ)
    (now e : ℚ) (pnl : Option ℚ) (hdate : cb.stats.date = today) :
    cb.update_equity today now e pnl =
      ({ cb with stats := cb.stats.apply e pnl }).check_triggers now := by
  unfold CircuitBreaker.update_equity
  rw [if_neg (by simp [hdate])]

lemma CircuitBreaker.check_triggers_trip_daily (cb : CircuitBreaker) (now : ℚ)
    (hne : cb.state ≠ .opened)
    (h : cb.stats.daily_return ≤ -cb.config.daily_loss_threshold) :
    cb.check_triggers now = cb.trip now msgDailyLoss := by
  unfold CircuitBreaker.check_triggers
  rw [if_neg hne, if_pos h]

lemma CircuitBreaker.check_triggers_no_trip (cb : CircuitBreaker) (now : ℚ)
    (hne : cb.state ≠ .opened)
    (h1 : ¬ cb.stats.daily_return ≤ -cb.config.daily_loss_threshold)
    (h2 : ¬ cb.stats.consecutive_losses ≥ cb.config.consecutive_loss_count) :
    cb.check_triggers now = cb := by
  unfold CircuitBreaker.check_triggers
  rw [if_neg hne, if_neg h1, if_neg h2]

lemma CircuitBreaker.can_trade_closed (cb : CircuitBreaker) (now : ℚ)
    (h : cb.state = .closed) : cb.can_trade now = (true, cb) := by
  unfold CircuitBreaker.can_trade
  rw [cb.check_recovery_of_ne_opened now (by simp [h])]
  simp [h]

lemma CircuitBreaker.can_trade_halfOpen (cb : CircuitBreaker) (now : ℚ)
    (h : cb.state = .halfOpen) :
    cb.can_trade now =
      (decide (cb.half_open_orders < cb.config.half_open_order_limit),
       if cb.half_open_orders < cb.config.half_open_order_limit then
         { cb with half_open_orders := cb.half_open_orders + 1 }
       else cb) := by
  unfold CircuitBreaker.can_trade
  rw [cb.check_recovery_of_ne_opened now (by simp [h])]
  by_cases hlt : cb.half_open_orders < cb.config.half_open_order_limit <;>
    simp [h, hlt]

lemma CircuitBreaker.can_trade_iter_halfOpen (cb : CircuitBreaker) (now : ℚ)
    (h : cb.state = .halfOpen) (h0 : cb.half_open_orders = 0) (n : ℕ) :
    (cb.can_trade_iter now n).state = .halfOpen ∧
    (cb.can_trade_iter now n).config = cb.config ∧
    (cb.can_trade_iter now n).half_open_orders = min n cb.config.half_open_order_limit := by
  induction n with
  | zero =>
    refine ⟨h, rfl, ?_⟩
    simp [CircuitBreaker.can_trade_iter, h0]
  | succ n ih =>
    obtain ⟨hs, hc, ho⟩ := ih
    simp only [CircuitBreaker.can_trade_iter]
    rw [CircuitBreaker.can_trade_halfOpen _ now hs]
    by_cases hlt : (cb.can_trade_iter now n).half_open_orders <
        (cb.can_trade_iter now n).config.half_open_order_limit
    · rw [if_pos hlt]
      rw [hc, ho] at hlt
      refine ⟨hs, hc, ?_⟩
      show (cb.can_trade_iter now n).half_open_orders + 1 =
        min (n + 1) cb.config.half_open_order_limit
      rw [ho]
      omega
    · rw [if_neg hlt]
      rw [hc, ho] at hlt
      exact ⟨hs, hc, by rw [ho]; omega⟩

/-- Circuit breaker used for the boundary scenario of the spec: default
thresholds, initialized with equity 10000 on day 0. -/
def cbBoundary : CircuitBreaker :=
  (CircuitBreaker.mk_new ⟨3/100, 1/100, 5, 300, 1, true⟩ 0).init_equity 0 10000

/-- C3: from the CLOSED state, an `update_equity` call (on the same day)
trips to OPEN exactly when, after the statistics mutation, the daily return
is at most minus the daily-loss threshold or the consecutive-loss count has
reached its limit; at the boundary with threshold 0.03 and initial equity
10000, `update_equity 9700` (return exactly -3.00%) trips while
`update_equity 9701` (-2.99%) does not. -/
theorem update_equity_closed_to_open_iff
    (cb : CircuitBreaker) (today : ℕ) (now e : ℚ) (pnl : Option ℚ)
    (hclosed : cb.state = .closed) (hdate : cb.stats.date = today) :
    ((cb.update_equity today now e pnl).state = .opened ↔
      ((cb.stats.apply e pnl).daily_return ≤ -cb.config.daily_loss_threshold ∨
       (cb.stats.apply e pnl).consecutive_losses ≥ cb.config.consecutive_loss_count)) ∧
    (cbBoundary.update_equity 0 5 9700 none).state = .opened ∧
    (cbBoundary.update_equity 0 5 9701 none).state = .closed := by
  refine ⟨?_, ?_, ?_⟩
  · unfold CircuitBreaker.update_equity
    rw [if_neg (by simp [hdate])]
    unfold CircuitBreaker.check_triggers
    rw [if_neg (by simp [hclosed])]
    split_ifs with h1 h2
    · exact iff_of_true rfl (Or.inl h1)
    · exact iff_of_true rfl (Or.inr h2)
    · simp only [CircuitBreaker.trip]
      constructor
      · intro hop
        exact absurd (hclosed ▸ hop) (by simp)
      · intro hcond
        rcases hcond with hc | hc
        · exact absurd hc h1
        · exact absurd hc h2
  · rw [CircuitBreaker.update_equity_same_day cbBoundary 0 5 9700 none rfl]
    rw [CircuitBreaker.check_triggers_trip_daily
      ({ cbBoundary with stats := cbBoundary.stats.apply 9700 none }) 5 (by decide)
      (by norm_num [cbBoundary, CircuitBreaker.mk_new, CircuitBreaker.init_equity,
        TradingStats.apply, TradingStats.daily_return])]
    rfl
  · rw [CircuitBreaker.update_equity_same_day cbBoundary 0 5 9701 none rfl]
    rw [CircuitBreaker.check_triggers_no_trip
      ({ cbBoundary with stats := cbBoundary.stats.apply 9701 none }) 5 (by decide)
      (by norm_num [cbBoundary, CircuitBreaker.mk_new, CircuitBreaker.init_equity,
        TradingStats.apply, TradingStats.daily_return])
      (by norm_num [cbBoundary, CircuitBreaker.mk_new, CircuitBreaker.init_equity,
        TradingStats.apply])]
    rfl

/-- Witness for C3 at the boundary breaker itself. -/
theorem update_equity_closed_to_open_iff_witness :
    (((cbBoundary.update_equity 0 5 9700 none).state = .opened ↔
      ((cbBoundary.stats.apply 9700 none).daily_return ≤
         -cbBoundary.config.daily_loss_threshold ∨
       (cbBoundary.stats.apply 9700 none).consecutive_losses ≥
         cbBoundary.config.consecutive_loss_count)) ∧
     (cbBoundary.update_equity 0 5 9700 none).state = .opened ∧
     (cbBoundary.update_equity 0 5 9701 none).state = .closed) :=
  update_equity_closed_to_open_iff cbBoundary 0 5 9700 none rfl rfl

/-- A literal half-open breaker, used as witness input for C4. -/
def cbHalfLit : CircuitBreaker :=
  ⟨⟨3/100, 1/100, 5, 300, 1, true⟩, .halfOpen,
   ⟨0, 10000, 9700, 10000, -300, 0, -300, 0, 0, 0, 0⟩, some 0, 0, some msgDailyLoss⟩

/-- C4: in the HALF_OPEN state each `can_trade()` poll consumes a trial
slot: starting from a zero trial counter, the (n+1)-st poll returns true
exactly when n is below `half_open_order_limit`; `record_half_open_result
true` moves to CLOSED clearing the trip timestamp and reason, while
`record_half_open_result false` moves back to OPEN with the trip timestamp
reset to the current instant. -/
theorem half_open_trial_slots_and_results
    (cb : CircuitBreaker) (now : ℚ) (n : ℕ)
    (hho : cb.state = .halfOpen) (h0 : cb.half_open_orders = 0) :
    (((cb.can_trade_iter now n).can_trade now).1 =
       decide (n < cb.config.half_open_order_limit)) ∧
    ((cb.record_half_open_result now true).state = .closed ∧
     (cb.record_half_open_result now true).tripped_time = none ∧
     (cb.record_half_open_result now true).trip_reason = none) ∧
    ((cb.record_half_open_result now false).state = .opened ∧
     (cb.record_half_open_result now false).tripped_time = some now) := by
  obtain ⟨hs, hc, ho⟩ := cb.can_trade_iter_halfOpen now hho h0 n
  refine ⟨?_, ?_, ?_⟩
  · rw [CircuitBreaker.can_trade_halfOpen _ now hs]
    rw [hc]
    rw [ho]
    have : (min n cb.config.half_open_order_limit < cb.config.half_open_order_limit) ↔
        (n < cb.config.half_open_order_limit) := by omega
    simp [this]
  · unfold CircuitBreaker.record_half_open_result
    rw [if_neg (by simp [hho])]
    simp
  · unfold CircuitBreaker.record_half_open_result
    rw [if_neg (by simp [hho])]
    simp

/-- Witness for C4 on the literal half-open breaker with limit 1. -/
theorem half_open_trial_slots_and_results_witness :
    ((((cbHalfLit.can_trade_iter 400 0).can_trade 400).1 =
       decide (0 < cbHalfLit.config.half_open_order_limit)) ∧
     ((cbHalfLit.record_half_open_result 400 true).state = .closed ∧
      (cbHalfLit.record_half_open_result 400 true).tripped_time = none ∧
      (cbHalfLit.record_half_open_result 400 true).trip_reason = none) ∧
     ((cbHalfLit.record_half_open_result 400 false).state = .opened ∧
      (cbHalfLit.record_half_open_result 400 false).tripped_time = some 400)) :=
  half_open_trial_slots_and_results cbHalfLit 400 0 rfl rfl

lemma CircuitBreaker.can_trade_open_elapsed (cb : CircuitBreaker) (now t : ℚ)
    (ho : cb.state = .opened) (ht : cb.tripped_time = some t)
    (hge : now - t ≥ cb.config.recovery_time)
    (hl : 0 < cb.config.half_open_order_limit) :
    (cb.can_trade now).1 = true ∧ ((cb.can_trade now).2).state = .halfOpen := by
  unfold CircuitBreaker.can_trade
  rw [cb.check_recovery_some now t ht, if_pos hge, if_pos ho]
  simp [hl]

/-- Circuit breaker with `auto_recover = false`, initialized with equity
10000 on day 0, before any trip. -/
def cbNoAutoBase : CircuitBreaker :=
  (CircuitBreaker.mk_new ⟨3/100, 1/100, 5, 300, 1, false⟩ 0).init_equity 0 10000

/-- Circuit breaker with `auto_recover = false`, tripped at instant 0 by the
-3% update on day 0. -/
def cbNoAuto : CircuitBreaker := cbNoAutoBase.update_equity 0 0 9700 none

/-- Counterexample to C5: with `auto_recover` disabled and `recovery_time`
300 s, the breaker trips at instant 0, yet the `can_trade()` poll at
instant 400 moves it to HALF_OPEN and returns true — `can_trade` runs
`_check_recovery` unconditionally, so a tripped breaker does not stay OPEN
without auto-recovery. -/
theorem open_recovers_without_auto_recover :
    cbNoAuto.config.auto_recover = false ∧
    cbNoAuto.state = .opened ∧
    (cbNoAuto.can_trade 400).1 = true ∧
    ((cbNoAuto.can_trade 400).2).state = .halfOpen := by
  have hstep : cbNoAuto =
      ({ cbNoAutoBase with stats := cbNoAutoBase.stats.apply 9700 none }).trip 0 msgDailyLoss := by
    unfold cbNoAuto
    rw [CircuitBreaker.update_equity_same_day cbNoAutoBase 0 0 9700 none rfl]
    exact CircuitBreaker.check_triggers_trip_daily
      ({ cbNoAutoBase with stats := cbNoAutoBase.stats.apply 9700 none }) 0 (by decide)
      (by norm_num [cbNoAutoBase, CircuitBreaker.mk_new, CircuitBreaker.init_equity,
        TradingStats.apply, TradingStats.daily_return])
  have ho : cbNoAuto.state = .opened := by rw [hstep]; rfl
  have ht : cbNoAuto.tripped_time = some 0 := by rw [hstep]; rfl
  have hauto : cbNoAuto.config.auto_recover = false := by rw [hstep]; rfl
  have hrec : cbNoAuto.config.recovery_time = 300 := by rw [hstep]; rfl
  have hlim : cbNoAuto.config.half_open_order_limit = 1 := by rw [hstep]; rfl
  obtain ⟨h1, h2⟩ := CircuitBreaker.can_trade_open_elapsed cbNoAuto 400 0 ho ht
    (by rw [hrec]; norm_num) (by rw [hlim]; norm_num)
  exact ⟨hauto, ho, h1, h2⟩

/-- C5 (amended): an OPEN breaker with trip instant t moves to HALF_OPEN on
a `can_trade()` poll exactly when `now - t ≥ recovery_time`, regardless of
`auto_recover` (which only gates the recovery check made during
`update_equity`); before that elapse the poll returns false and the breaker
stays OPEN. -/
theorem can_trade_open_to_half_open_iff_elapsed
    (cb : CircuitBreaker) (now t : ℚ)
    (ho : cb.state = .opened) (ht : cb.tripped_time = some t) :
    (((cb.can_trade now).2).state = .halfOpen ↔ now - t ≥ cb.config.recovery_time) ∧
    (now - t < cb.config.recovery_time →
      (cb.can_trade now).1 = false ∧ ((cb.can_trade now).2).state = .opened) := by
  unfold CircuitBreaker.can_trade
  rw [cb.check_recovery_some now t ht]
  by_cases hge : now - t ≥ cb.config.recovery_time
  · rw [if_pos hge, if_pos ho]
    constructor
    · by_cases hlt : (0 : ℕ) < cb.config.half_open_order_limit <;> simp [hlt, hge]
    · intro hcontra
      exact absurd hge (not_le.mpr hcontra)
  · rw [if_neg hge]
    constructor
    · simp [ho, hge]
    · intro _
      refine ⟨?_, ?_⟩ <;> simp [ho]

/-- A literal open breaker with `auto_recover = false`, tripped at 0, used
as witness input for the amended C5. -/
def cbOpenLit : CircuitBreaker :=
  ⟨⟨3/100, 1/100, 5, 300, 1, false⟩, .opened,
   ⟨0, 10000, 9700, 10000, -300, 0, -300, 0, 0, 0, 0⟩, some 0, 0, some msgDailyLoss⟩

/-- Witness for the amended C5. -/
theorem can_trade_open_to_half_open_iff_elapsed_witness :
    ((((cbOpenLit.can_trade 400).2).state = .halfOpen ↔
       (400 : ℚ) - 0 ≥ cbOpenLit.config.recovery_time) ∧
     ((400 : ℚ) - 0 < cbOpenLit.config.recovery_time →
       (cbOpenLit.can_trade 400).1 = false ∧
       ((cbOpenLit.can_trade 400).2).state = .opened)) :=
  can_trade_open_to_half_open_iff_elapsed cbOpenLit 400 0 rfl rfl

/-! ### Drawdown-monitor lemmas -/

lemma DrawdownMonitor.check_thresholds_fst (m : DrawdownMonitor) :
    (m.check_thresholds).1 =
      if m.current_drawdown ≥ m.config.max_drawdown then { m with exceeded := true }
      else m := by
  unfold DrawdownMonitor.check_thresholds
  split_ifs <;> rfl

lemma DrawdownMonitor.update_config (m : DrawdownMonitor) (e : ℚ) :
    ((m.update e).1).config = m.config := by
  unfold DrawdownMonitor.update
  rw [DrawdownMonitor.check_thresholds_fst]
  split_ifs <;> rfl

lemma DrawdownMonitor.update_peak (m : DrawdownMonitor) (e : ℚ) :
    ((m.update e).1).peak_equity = if e > m.peak_equity then e else m.peak_equity := by
  unfold DrawdownMonitor.update
  rw [DrawdownMonitor.check_thresholds_fst]
  split_ifs <;> rfl

lemma DrawdownMonitor.update_drawdown (m : DrawdownMonitor) (e : ℚ) :
    ((m.update e).1).current_drawdown =
      if (if e > m.peak_equity then e else m.peak_equity) > 0 then
        ((if e > m.peak_equity then e else m.peak_equity) - e) /
          (if e > m.peak_equity then e else m.peak_equity)
      else 0 := by
  unfold DrawdownMonitor.update
  rw [DrawdownMonitor.check_thresholds_fst]
  split_ifs <;> rfl

lemma DrawdownMonitor.update_exceeded_iff (m : DrawdownMonitor) (e : ℚ) :
    ((m.update e).1).exceeded = true ↔
      (m.exceeded = true ∨
        (if (if e > m.peak_equity then e else m.peak_equity) > 0 then
          ((if e > m.peak_equity then e else m.peak_equity) - e) /
            (if e > m.peak_equity then e else m.peak_equity)
         else 0) ≥ m.config.max_drawdown) := by
  unfold DrawdownMonitor.update
  rw [DrawdownMonitor.check_thresholds_fst]
  split_ifs <;> simp_all

lemma DrawdownMonitor.updates_cons (m : DrawdownMonitor) (e : ℚ) (es : List ℚ) :
    DrawdownMonitor.updates m (e :: es) = DrawdownMonitor.updates ((m.update e).1) es := rfl

lemma DrawdownMonitor.updates_exceeded_config (es : List ℚ) (m : DrawdownMonitor)
    (hex : m.exceeded = true) :
    (DrawdownMonitor.updates m es).exceeded = true ∧
    (DrawdownMonitor.updates m es).config = m.config := by
  induction es generalizing m with
  | nil => exact ⟨hex, rfl⟩
  | cons e es ih =>
    have hex1 : ((m.update e).1).exceeded = true :=
      (m.update_exceeded_iff e).mpr (Or.inl hex)
    obtain ⟨h1, h2⟩ := ih ((m.update e).1) hex1
    rw [DrawdownMonitor.updates_cons]
    exact ⟨h1, by rw [h2, m.update_config e]⟩

/-- Drawdown monitor with default thresholds, initialized with equity
10000. -/
def dmBase : DrawdownMonitor :=
  (DrawdownMonitor.mk_new ⟨15/100, 5/100, 10/100, true, 0⟩).init_equity 10000

/-- C6: once an `update` classifies the drawdown as EXCEEDED (current
drawdown at or above `max_drawdown`), the sticky `exceeded` flag is set;
every further sequence of `update` calls keeps it set and, with
`auto_stop_on_exceed` enabled, `can_trade()` keeps returning false; only an
explicit `reset_exceeded()` clears the flag (after which `can_trade()`
returns true again). -/
theorem drawdown_exceeded_sticky_until_reset
    (m : DrawdownMonitor) (e : ℚ) (es : List ℚ)
    (hstop : m.config.auto_stop_on_exceed = true)
    (hdd : ((m.update e).1).current_drawdown ≥ m.config.max_drawdown) :
    ((m.update e).1).exceeded = true ∧
    (DrawdownMonitor.updates ((m.update e).1) es).exceeded = true ∧
    (DrawdownMonitor.updates ((m.update e).1) es).can_trade = false ∧
    ((DrawdownMonitor.updates ((m.update e).1) es).reset_exceeded).exceeded = false ∧
    ((DrawdownMonitor.updates ((m.update e).1) es).reset_exceeded).can_trade = true := by
  rw [m.update_drawdown e] at hdd
  have h1 : ((m.update e).1).exceeded = true :=
    (m.update_exceeded_iff e).mpr (Or.inr hdd)
  obtain ⟨h2, hcfg⟩ := DrawdownMonitor.updates_exceeded_config es ((m.update e).1) h1
  refine ⟨h1, h2, ?_, ?_, ?_⟩
  · unfold DrawdownMonitor.can_trade
    rw [hcfg, m.update_config e, hstop, h2]
    rfl
  · unfold DrawdownMonitor.reset_exceeded
    rfl
  · unfold DrawdownMonitor.can_trade DrawdownMonitor.reset_exceeded
    simp

lemma dmBase_exceeds_at_8000 :
    ((dmBase.update 8000).1).current_drawdown ≥ dmBase.config.max_drawdown := by
  rw [dmBase.update_drawdown 8000]
  norm_num [dmBase, DrawdownMonitor.mk_new, DrawdownMonitor.init_equity]

/-- Witness for C6: equity 10000 then 8000 (drawdown 20%), followed by
updates with recovered equity 9000 and 12000. -/
theorem drawdown_exceeded_sticky_until_reset_witness :
    (((dmBase.update 8000).1).exceeded = true ∧
     (DrawdownMonitor.updates ((dmBase.update 8000).1) [9000, 12000]).exceeded = true ∧
     (DrawdownMonitor.updates ((dmBase.update 8000).1) [9000, 12000]).can_trade = false ∧
     ((DrawdownMonitor.updates ((dmBase.update 8000).1) [9000, 12000]).reset_exceeded).exceeded
       = false ∧
     ((DrawdownMonitor.updates ((dmBase.update 8000).1) [9000, 12000]).reset_exceeded).can_trade
       = true) :=
  drawdown_exceeded_sticky_until_reset dmBase 8000 [9000, 12000] rfl dmBase_exceeds_at_8000

/-- C8: a single `update` with non-negative equity keeps the computed
drawdown inside [0, 1] (and it is 0 whenever the peak is 0), and never
decreases `peak_equity`; consequently along every sequence of non-negative
updates the peak is non-decreasing and the drawdown stays in [0, 1]. -/
theorem drawdown_in_unit_interval_peak_monotone
    (m : DrawdownMonitor) (e : ℚ) (he : 0 ≤ e) :
    0 ≤ ((m.update e).1).current_drawdown ∧
    ((m.update e).1).current_drawdown ≤ 1 ∧
    (((m.update e).1).peak_equity = 0 → ((m.update e).1).current_drawdown = 0) ∧
    m.peak_equity ≤ ((m.update e).1).peak_equity := by
  rw [m.update_drawdown e, m.update_peak e]
  by_cases hpk : e > m.peak_equity
  · rw [if_pos hpk]
    by_cases he0 : e > 0
    · rw [if_pos he0]
      refine ⟨by simp, ?_, ?_, le_of_lt hpk⟩
      · rw [div_le_one he0]
        linarith
      · intro h0
        rw [h0] at he0
        exact absurd he0 (by norm_num)
    · rw [if_neg he0]
      exact ⟨le_refl 0, by norm_num, fun _ => rfl, le_of_lt hpk⟩
  · rw [if_neg hpk]
    by_cases hp0 : m.peak_equity > 0
    · rw [if_pos hp0]
      refine ⟨?_, ?_, ?_, le_refl _⟩
      · apply div_nonneg _ (le_of_lt hp0)
        have := le_of_not_lt hpk
        linarith
      · rw [div_le_one hp0]
        linarith
      · intro h0
        rw [h0] at hp0
        exact absurd hp0 (by norm_num)
    · rw [if_neg hp0]
      exact ⟨le_refl 0, by norm_num, fun _ => rfl, le_refl _⟩

lemma nonneg_9500 : (0 : ℚ) ≤ 9500 := by norm_num

/-- Witness for C8 at the initialized monitor and equity 9500. -/
theorem drawdown_in_unit_interval_peak_monotone_witness :
    (0 ≤ ((dmBase.update 9500).1).current_drawdown ∧
     ((dmBase.update 9500).1).current_drawdown ≤ 1 ∧
     (((dmBase.update 9500).1).peak_equity = 0 →
       ((dmBase.update 9500).1).current_drawdown = 0) ∧
     dmBase.peak_equity ≤ ((dmBase.update 9500).1).peak_equity) :=
  drawdown_in_unit_interval_peak_monotone dmBase 9500 nonneg_9500

/-! ### Slippage-checker lemmas -/

/-- Symbol used in concrete scenarios. -/
def symA : String := "AAPL"

/-- Side string used in concrete scenarios. -/
def sideLong : String := "long"

lemma SlippageChecker.check_slippage_fst (c : SlippageChecker) (symbol : String)
    (ep xp : ℚ) (oid : Option String) (hep : ep > 0) :
    (c.check_slippage symbol ep xp oid).1 =
      ⟨symbol, ep, xp, (xp - ep) / ep, c.config.max_slippage, oid⟩ := by
  unfold SlippageChecker.check_slippage
  rw [if_pos hep]

/-- Slippage checker with `max_slippage = 0.002`. -/
def scBase : SlippageChecker := SlippageChecker.mk_new ⟨1/500, 1/1000, false, 100⟩

/-- Rounding of `x` to the nearest integer multiple of the unit `u`:
the building block of the IEEE-754 binary64 (Python float) evaluation
below, where `u` is the ulp of the binade holding the result.  Mathlib
`round` breaks ties upward while binary64 breaks them to even, but no
rounding performed below is a tie (every scaled value has fractional part
with denominator 5, 25 or 125), so the two agree on these inputs. -/
def rndTo (u x : ℚ) : ℚ := round (x / u) * u

/-- The binary64 value of the Python literal `100.2`: 100.2 lies in the
binade [2^6, 2^7), whose ulp is 2^-46. -/
def fl_100_2 : ℚ := rndTo (1/2^46) (501/5)

/-- The binary64 result of `100.2 - 100.0`: the exact difference of the two
doubles, rounded in the binade [2^-3, 2^-2) (ulp 2^-55); the rounding is
the identity here because the difference is itself representable. -/
def fl_boundary_diff : ℚ := rndTo (1/2^55) (fl_100_2 - 100)

/-- The binary64 result of `(100.2 - 100.0) / 100.0`, the slippage the
Python program computes at slippage_checker.py line 98 for the boundary
inputs of the spec: the exact quotient rounded in [2^-9, 2^-8)
(ulp 2^-61). -/
def fl_boundary_slippage : ℚ := rndTo (1/2^61) (fl_boundary_diff / 100)

/-- The binary64 value of the Python literal `0.002` (the stored
`max_slippage`): rounded in the binade [2^-9, 2^-8) (ulp 2^-61). -/
def fl_max_slippage : ℚ := rndTo (1/2^61) (1/500)

/-- The value of `SlippageViolation.is_violation` as the float program
computes it at the boundary: `abs(slippage) > threshold` over the binary64
values. -/
def boundary_is_violation_double : Bool := |fl_boundary_slippage| > fl_max_slippage

lemma fl_100_2_eq : fl_100_2 = 7050948166601933 / 2^46 := by
  unfold fl_100_2 rndTo
  rw [round_eq]
  norm_num

lemma fl_boundary_diff_eq : fl_boundary_diff = 14073748835533 / 2^46 := by
  unfold fl_boundary_diff rndTo
  rw [fl_100_2_eq, round_eq]
  norm_num

lemma fl_boundary_slippage_eq : fl_boundary_slippage = 4611686018427453 / 2^61 := by
  unfold fl_boundary_slippage rndTo
  rw [fl_boundary_diff_eq, round_eq]
  norm_num

lemma fl_max_slippage_eq : fl_max_slippage = 4611686018427388 / 2^61 := by
  unfold fl_max_slippage rndTo
  rw [round_eq]
  norm_num

/-- Counterexample to C7: at the claim's own boundary input the program's
binary64 arithmetic flags a violation.  The double nearest 100.2 minus
100.0, divided by 100.0, lands strictly above the double nearest 0.002
(4611686018427453 vs 4611686018427388 sixty-firsts-of-two), so the
program's `abs(slippage) > threshold` is true — while the exact-rational
slippage is exactly 1/500, which the claim's `is_violation=false` would
require.  The trailing conjuncts certify the binades that fix each ulp. -/
theorem slippage_boundary_double_is_violation :
    boundary_is_violation_double = true ∧
    fl_boundary_slippage > fl_max_slippage ∧
    ((scBase.check_slippage symA 100 (501/5) none).1).slippage = 1/500 ∧
    fl_boundary_slippage > 1/500 ∧
    ((2:ℚ)^6 ≤ 501/5 ∧ (501:ℚ)/5 < 2^7) ∧
    ((2:ℚ)^(-3 : ℤ) ≤ fl_boundary_diff ∧ fl_boundary_diff < (2:ℚ)^(-2 : ℤ)) ∧
    ((2:ℚ)^(-9 : ℤ) ≤ fl_boundary_diff / 100 ∧ fl_boundary_diff / 100 < (2:ℚ)^(-8 : ℤ)) ∧
    ((2:ℚ)^(-9 : ℤ) ≤ 1/500 ∧ (1:ℚ)/500 < (2:ℚ)^(-8 : ℤ)) := by
  have hgt : |fl_boundary_slippage| > fl_max_slippage := by
    rw [fl_boundary_slippage_eq, fl_max_slippage_eq,
      abs_of_nonneg (by norm_num : (0:ℚ) ≤ 4611686018427453 / 2^61)]
    norm_num
  refine ⟨decide_eq_true hgt, ?_, ?_, ?_, ?_, ?_, ?_, ?_⟩
  · rw [fl_boundary_slippage_eq, fl_max_slippage_eq]
    norm_num
  · rw [SlippageChecker.check_slippage_fst scBase symA 100 (501/5) none (by norm_num)]
    norm_num
  · rw [fl_boundary_slippage_eq]
    norm_num
  · norm_num
  · rw [fl_boundary_diff_eq]
    norm_num
  · rw [fl_boundary_diff_eq]
    norm_num
  · norm_num

/-- C7 (amended): `check_slippage` computes signed slippage
`(executed - expected) / expected` (for a positive expected price) and
flags a violation exactly when the absolute slippage strictly exceeds
`max_slippage`; with `max_slippage = 0.002`, the binary64 arithmetic the
program uses makes the nominal boundary order — expected 100.0, executed
100.2 — a violation, because the computed slippage lands strictly above
the stored threshold (exact arithmetic would give exactly 0.002 and no
violation); executing at 100.21 is likewise a violation. -/
theorem slippage_strict_and_boundary_double
    (c : SlippageChecker) (symbol : String) (ep xp : ℚ) (oid : Option String)
    (hep : ep > 0) :
    (((c.check_slippage symbol ep xp oid).1).slippage = (xp - ep) / ep ∧
     (((c.check_slippage symbol ep xp oid).1).is_violation = true ↔
        |(xp - ep) / ep| > c.config.max_slippage)) ∧
    boundary_is_violation_double = true ∧
    fl_boundary_slippage > fl_max_slippage ∧
    ((scBase.check_slippage symA 100 (10021/100) none).1).is_violation = true := by
  refine ⟨⟨?_, ?_⟩, ?_, ?_, ?_⟩
  · rw [c.check_slippage_fst symbol ep xp oid hep]
  · rw [c.check_slippage_fst symbol ep xp oid hep]
    simp [SlippageViolation.is_violation]
  · have hgt : |fl_boundary_slippage| > fl_max_slippage := by
      rw [fl_boundary_slippage_eq, fl_max_slippage_eq,
        abs_of_nonneg (by norm_num : (0:ℚ) ≤ 4611686018427453 / 2^61)]
      norm_num
    exact decide_eq_true hgt
  · rw [fl_boundary_slippage_eq, fl_max_slippage_eq]
    norm_num
  · rw [SlippageChecker.check_slippage_fst scBase symA 100 (10021/100) none (by norm_num)]
    simp only [SlippageViolation.is_violation]
    rw [show ((10021:ℚ)/100 - 100) / 100 = 21/10000 by norm_num]
    rw [abs_of_nonneg (by norm_num : (0:ℚ) ≤ 21/10000)]
    simp only [decide_eq_true_eq]
    norm_num [scBase, SlippageChecker.mk_new]

lemma pos_100 : (100 : ℚ) > 0 := by norm_num

/-- Witness for the amended C7 at expected price 100 and executed price
100.2. -/
theorem slippage_strict_and_boundary_double_witness :
    ((((scBase.check_slippage symA 100 (501/5) none).1).slippage = (501/5 - 100) / 100 ∧
      (((scBase.check_slippage symA 100 (501/5) none).1).is_violation = true ↔
         |(501/5 - 100) / 100| > scBase.config.max_slippage)) ∧
     boundary_is_violation_double = true ∧
     fl_boundary_slippage > fl_max_slippage ∧
     ((scBase.check_slippage symA 100 (10021/100) none).1).is_violation = true) :=
  slippage_strict_and_boundary_double scBase symA 100 (501/5) none pos_100

/-! ### Risk-manager lemmas -/

/-- Result component of `pre_trade_check` (its Python return value). -/
def RiskManager.ptc1 (rm : RiskManager) (now : ℚ) (sym sd : String) (q : ℤ)
    (p cpv te : ℚ) : RiskCheckResult :=
  (rm.pre_trade_check now sym sd q p cpv te).1

lemma RiskManager.ptc1_reject_cb (rm : RiskManager) (now : ℚ) (sym sd : String)
    (q : ℤ) (p cpv te : ℚ)
    (h1 : (rm.circuit_breaker.can_trade now).1 = false) :
    rm.ptc1 now sym sd q p cpv te = ⟨false, .halted, ["Circuit breaker is open"], []⟩ := by
  simp only [RiskManager.ptc1, RiskManager.pre_trade_check]
  simp [h1]

lemma RiskManager.ptc1_reject_drawdown (rm : RiskManager) (now : ℚ) (sym sd : String)
    (q : ℤ) (p cpv te : ℚ)
    (h1 : (rm.circuit_breaker.can_trade now).1 = true)
    (h2 : rm.drawdown_monitor.can_trade = false) :
    rm.ptc1 now sym sd q p cpv te = ⟨false, .halted, ["Drawdown exceeded"], []⟩ := by
  simp only [RiskManager.ptc1, RiskManager.pre_trade_check]
  simp [h1, h2]

lemma RiskManager.ptc1_reject_interval (rm : RiskManager) (now : ℚ) (sym sd : String)
    (q : ℤ) (p cpv te : ℚ)
    (h1 : (rm.circuit_breaker.can_trade now).1 = true)
    (h2 : rm.drawdown_monitor.can_trade = true)
    (h3 : now - rm.last_order_time < rm.config.min_order_interval) :
    rm.ptc1 now sym sd q p cpv te = ⟨false, .high, ["Order interval too short"], []⟩ := by
  simp only [RiskManager.ptc1, RiskManager.pre_trade_check]
  simp [h1, h2, h3]

lemma RiskManager.ptc1_reject_rate (rm : RiskManager) (now : ℚ) (sym sd : String)
    (q : ℤ) (p cpv te : ℚ)
    (h1 : (rm.circuit_breaker.can_trade now).1 = true)
    (h2 : rm.drawdown_monitor.can_trade = true)
    (h3 : ¬(now - rm.last_order_time < rm.config.min_order_interval))
    (h4 : (rm.order_timestamps.filter fun t => now - t < 60).length ≥
      rm.config.max_orders_per_minute) :
    rm.ptc1 now sym sd q p cpv te = ⟨false, .high, ["Max orders per minute exceeded"], []⟩ := by
  simp only [RiskManager.ptc1, RiskManager.pre_trade_check]
  simp [h1, h2, h3, h4]

lemma RiskManager.ptc1_reject_value (rm : RiskManager) (now : ℚ) (sym sd : String)
    (q : ℤ) (p cpv te : ℚ)
    (h1 : (rm.circuit_breaker.can_trade now).1 = true)
    (h2 : rm.drawdown_monitor.can_trade = true)
    (h3 : ¬(now - rm.last_order_time < rm.config.min_order_interval))
    (h4 : ¬((rm.order_timestamps.filter fun t => now - t < 60).length ≥
      rm.config.max_orders_per_minute))
    (h5 : (q : ℚ) * p > rm.config.max_order_value) :
    rm.ptc1 now sym sd q p cpv te = ⟨false, .high, ["Order value exceeds max"], []⟩ := by
  simp only [RiskManager.ptc1, RiskManager.pre_trade_check]
  simp [h1, h2, h3, h4, h5]

lemma RiskManager.ptc1_reject_position (rm : RiskManager) (now : ℚ) (sym sd : String)
    (q : ℤ) (p cpv te : ℚ)
    (h1 : (rm.circuit_breaker.can_trade now).1 = true)
    (h2 : rm.drawdown_monitor.can_trade = true)
    (h3 : ¬(now - rm.last_order_time < rm.config.min_order_interval))
    (h4 : ¬((rm.order_timestamps.filter fun t => now - t < 60).length ≥
      rm.config.max_orders_per_minute))
    (h5 : ¬((q : ℚ) * p > rm.config.max_order_value))
    (h6 : te > 0 ∧ (if sd = "long" then cpv + (q : ℚ) * p else cpv) / te >
      rm.config.max_position_pct) :
    rm.ptc1 now sym sd q p cpv te = ⟨false, .high, ["Position would exceed max"], []⟩ := by
  simp only [RiskManager.ptc1, RiskManager.pre_trade_check]
  simp [h1, h2, h3, h4, h5, h6.1, h6.2]

lemma RiskManager.ptc1_all_pass (rm : RiskManager) (now : ℚ) (sym sd : String)
    (q : ℤ) (p cpv te : ℚ)
    (h1 : (rm.circuit_breaker.can_trade now).1 = true)
    (h2 : rm.drawdown_monitor.can_trade = true)
    (h3 : ¬(now - rm.last_order_time < rm.config.min_order_interval))
    (h4 : ¬((rm.order_timestamps.filter fun t => now - t < 60).length ≥
      rm.config.max_orders_per_minute))
    (h5 : ¬((q : ℚ) * p > rm.config.max_order_value))
    (h6 : ¬(te > 0 ∧ (if sd = "long" then cpv + (q : ℚ) * p else cpv) / te >
      rm.config.max_position_pct)) :
    rm.ptc1 now sym sd q p cpv te =
      if rm.drawdown_monitor.current_drawdown ≥ rm.config.critical_drawdown then
        ⟨true, .high, [], ["High drawdown"]⟩
      else if rm.drawdown_monitor.current_drawdown ≥ rm.config.warning_drawdown then
        ⟨true, .medium, [], ["Elevated drawdown"]⟩
      else ⟨true, .low, [], []⟩ := by
  simp only [RiskManager.ptc1, RiskManager.pre_trade_check]
  simp [h1, h2, h3, h4, h5, h6]
  split_ifs <;> rfl

/-- `RiskConfig` with the defaults of risk_manager.py except
`max_order_value = 1000` (the order-value boundary scenario of the spec). -/
def cfgStd : RiskConfig :=
  ⟨3/100, 1/100, 5, 300, 15/100, 5/100, 10/100, 1/500, 1/1000, false,
   1/5, 1, 1000, 1/2, 60, true, true⟩

/-- Risk manager with `cfgStd`, initialized with equity 10000 on day 0. -/
def rmBase : RiskManager := (RiskManager.mk_new cfgStd 0).init_equity 0 10000

/-- C1: `pre_trade_check` evaluates the six rules in fixed order and
returns on the first violated one — circuit breaker and drawdown rejections
carry risk level HALTED, the interval / rate / order-value / position
rejections carry HIGH, each with exactly the reason of the failed rule; and
whenever rules 1-4 pass and `max_order_value = 1000`, the order with
quantity 20 at price 75 (order value 1500) is rejected with risk level
HIGH. -/
theorem pre_trade_check_fixed_order_fail_fast
    (rm : RiskManager) (now : ℚ) (sym sd : String) (q : ℤ) (p cpv te : ℚ) :
    ((rm.circuit_breaker.can_trade now).1 = false →
      rm.ptc1 now sym sd q p cpv te = ⟨false, .halted, ["Circuit breaker is open"], []⟩) ∧
    ((rm.circuit_breaker.can_trade now).1 = true →
     rm.drawdown_monitor.can_trade = false →
      rm.ptc1 now sym sd q p cpv te = ⟨false, .halted, ["Drawdown exceeded"], []⟩) ∧
    ((rm.circuit_breaker.can_trade now).1 = true →
     rm.drawdown_monitor.can_trade = true →
     now - rm.last_order_time < rm.config.min_order_interval →
      rm.ptc1 now sym sd q p cpv te = ⟨false, .high, ["Order interval too short"], []⟩) ∧
    ((rm.circuit_breaker.can_trade now).1 = true →
     rm.drawdown_monitor.can_trade = true →
     ¬(now - rm.last_order_time < rm.config.min_order_interval) →
     (rm.order_timestamps.filter fun t => now - t < 60).length ≥
       rm.config.max_orders_per_minute →
      rm.ptc1 now sym sd q p cpv te = ⟨false, .high, ["Max orders per minute exceeded"], []⟩) ∧
    ((rm.circuit_breaker.can_trade now).1 = true →
     rm.drawdown_monitor.can_trade = true →
     ¬(now - rm.last_order_time < rm.config.min_order_interval) →
     ¬((rm.order_timestamps.filter fun t => now - t < 60).length ≥
       rm.config.max_orders_per_minute) →
     (q : ℚ) * p > rm.config.max_order_value →
      rm.ptc1 now sym sd q p cpv te = ⟨false, .high, ["Order value exceeds max"], []⟩) ∧
    ((rm.circuit_breaker.can_trade now).1 = true →
     rm.drawdown_monitor.can_trade = true →
     ¬(now - rm.last_order_time < rm.config.min_order_interval) →
     ¬((rm.order_timestamps.filter fun t => now - t < 60).length ≥
       rm.config.max_orders_per_minute) →
     ¬((q : ℚ) * p > rm.config.max_order_value) →
     te > 0 ∧ (if sd = "long" then cpv + (q : ℚ) * p else cpv) / te >
       rm.config.max_position_pct →
      rm.ptc1 now sym sd q p cpv te = ⟨false, .high, ["Position would exceed max"], []⟩) ∧
    ((rm.circuit_breaker.can_trade now).1 = true →
     rm.drawdown_monitor.can_trade = true →
     ¬(now - rm.last_order_time < rm.config.min_order_interval) →
     ¬((rm.order_timestamps.filter fun t => now - t < 60).length ≥
       rm.config.max_orders_per_minute) →
     rm.config.max_order_value = 1000 →
      rm.ptc1 now sym sd 20 75 cpv te = ⟨false, .high, ["Order value exceeds max"], []⟩) := by
  refine ⟨?_, ?_, ?_, ?_, ?_, ?_, ?_⟩
  · intro h1
    exact rm.ptc1_reject_cb now sym sd q p cpv te h1
  · intro h1 h2
    exact rm.ptc1_reject_drawdown now sym sd q p cpv te h1 h2
  · intro h1 h2 h3
    exact rm.ptc1_reject_interval now sym sd q p cpv te h1 h2 h3
  · intro h1 h2 h3 h4
    exact rm.ptc1_reject_rate now sym sd q p cpv te h1 h2 h3 h4
  · intro h1 h2 h3 h4 h5
    exact rm.ptc1_reject_value now sym sd q p cpv te h1 h2 h3 h4 h5
  · intro h1 h2 h3 h4 h5 h6
    exact rm.ptc1_reject_position now sym sd q p cpv te h1 h2 h3 h4 h5 h6
  · intro h1 h2 h3 h4 hmax
    exact rm.ptc1_reject_value now sym sd 20 75 cpv te h1 h2 h3 h4
      (by rw [hmax]; norm_num)

lemma rmBase_interval_ok :
    ¬((100:ℚ) - rmBase.last_order_time < rmBase.config.min_order_interval) := by
  norm_num [rmBase, RiskManager.mk_new, RiskManager.init_equity, cfgStd]

lemma rmBase_rate_ok :
    ¬((rmBase.order_timestamps.filter fun t => (100:ℚ) - t < 60).length ≥
      rmBase.config.max_orders_per_minute) := by
  simp [rmBase, RiskManager.mk_new, RiskManager.init_equity, cfgStd]

/-- Witness for C1: the fresh manager with `max_order_value = 1000` rejects
the 20 x 75 order with risk level HIGH. -/
theorem pre_trade_check_fixed_order_fail_fast_witness :
    rmBase.ptc1 100 symA sideLong 20 75 0 0 =
      ⟨false, .high, ["Order value exceeds max"], []⟩ :=
  (pre_trade_check_fixed_order_fail_fast rmBase 100 symA sideLong 20 75 0 0).2.2.2.2.2.2
    rfl rfl rmBase_interval_ok rmBase_rate_ok rfl

/-- C2 (amended): whenever all six rules pass, the result is allowed with
no rejection reasons, and its risk level is derived from the current
drawdown — HIGH (with a non-blocking warning) when the drawdown is at or
above the critical-drawdown threshold, MEDIUM (with a warning) when it is
at or above the warning threshold, and LOW otherwise. -/
theorem pre_trade_check_pass_risk_levels
    (rm : RiskManager) (now : ℚ) (sym sd : String) (q : ℤ) (p cpv te : ℚ)
    (h1 : (rm.circuit_breaker.can_trade now).1 = true)
    (h2 : rm.drawdown_monitor.can_trade = true)
    (h3 : ¬(now - rm.last_order_time < rm.config.min_order_interval))
    (h4 : ¬((rm.order_timestamps.filter fun t => now - t < 60).length ≥
      rm.config.max_orders_per_minute))
    (h5 : ¬((q : ℚ) * p > rm.config.max_order_value))
    (h6 : ¬(te > 0 ∧ (if sd = "long" then cpv + (q : ℚ) * p else cpv) / te >
      rm.config.max_position_pct)) :
    (rm.ptc1 now sym sd q p cpv te).allowed = true ∧
    (rm.ptc1 now sym sd q p cpv te).reasons = [] ∧
    (rm.drawdown_monitor.current_drawdown ≥ rm.config.critical_drawdown →
      (rm.ptc1 now sym sd q p cpv te).risk_level = .high ∧
      (rm.ptc1 now sym sd q p cpv te).warnings = ["High drawdown"]) ∧
    (¬(rm.drawdown_monitor.current_drawdown ≥ rm.config.critical_drawdown) →
     rm.drawdown_monitor.current_drawdown ≥ rm.config.warning_drawdown →
      (rm.ptc1 now sym sd q p cpv te).risk_level = .medium ∧
      (rm.ptc1 now sym sd q p cpv te).warnings = ["Elevated drawdown"]) ∧
    (¬(rm.drawdown_monitor.current_drawdown ≥ rm.config.critical_drawdown) →
     ¬(rm.drawdown_monitor.current_drawdown ≥ rm.config.warning_drawdown) →
      (rm.ptc1 now sym sd q p cpv te).risk_level = .low ∧
      (rm.ptc1 now sym sd q p cpv te).warnings = []) := by
  rw [rm.ptc1_all_pass now sym sd q p cpv te h1 h2 h3 h4 h5 h6]
  refine ⟨?_, ?_, ?_, ?_, ?_⟩
  · split_ifs <;> rfl
  · split_ifs <;> rfl
  · intro hc
    rw [if_pos hc]
    exact ⟨rfl, rfl⟩
  · intro hc hw
    rw [if_neg hc, if_pos hw]
    exact ⟨rfl, rfl⟩
  · intro hc hw
    rw [if_neg hc, if_neg hw]
    exact ⟨rfl, rfl⟩

lemma not_zero_pos_and (X : Prop) : ¬((0:ℚ) > 0 ∧ X) := fun hc => absurd hc.1 (lt_irrefl 0)

lemma rmBase_value_small_ok : ¬((1 : ℚ) * 1 > rmBase.config.max_order_value) := by
  norm_num [rmBase, RiskManager.mk_new, RiskManager.init_equity, cfgStd]

/-- Witness for the amended C2 on the fresh manager (zero drawdown). -/
theorem pre_trade_check_pass_risk_levels_witness :
    ((rmBase.ptc1 100 symA sideLong 1 1 0 0).allowed = true ∧
     (rmBase.ptc1 100 symA sideLong 1 1 0 0).reasons = [] ∧
     (rmBase.drawdown_monitor.current_drawdown ≥ rmBase.config.critical_drawdown →
       (rmBase.ptc1 100 symA sideLong 1 1 0 0).risk_level = .high ∧
       (rmBase.ptc1 100 symA sideLong 1 1 0 0).warnings = ["High drawdown"]) ∧
     (¬(rmBase.drawdown_monitor.current_drawdown ≥ rmBase.config.critical_drawdown) →
      rmBase.drawdown_monitor.current_drawdown ≥ rmBase.config.warning_drawdown →
       (rmBase.ptc1 100 symA sideLong 1 1 0 0).risk_level = .medium ∧
       (rmBase.ptc1 100 symA sideLong 1 1 0 0).warnings = ["Elevated drawdown"]) ∧
     (¬(rmBase.drawdown_monitor.current_drawdown ≥ rmBase.config.critical_drawdown) →
      ¬(rmBase.drawdown_monitor.current_drawdown ≥ rmBase.config.warning_drawdown) →
       (rmBase.ptc1 100 symA sideLong 1 1 0 0).risk_level = .low ∧
       (rmBase.ptc1 100 symA sideLong 1 1 0 0).warnings = [])) :=
  pre_trade_check_pass_risk_levels rmBase 100 symA sideLong 1 1 0 0
    rfl rfl rmBase_interval_ok rmBase_rate_ok rmBase_value_small_ok
    (not_zero_pos_and _)

/-- Manager initialized at 10000, rallied to 12500, then fallen to 11000:
current drawdown 12% with a +10% daily return (no circuit-breaker trip). -/
def rmC2 : RiskManager :=
  (((RiskManager.mk_new cfgStd 0).init_equity 0 10000).update_equity 0 0 12500 none).update_equity
    0 1 11000 none

/-- First circuit-breaker step of `rmC2`. -/
def cbC2a : CircuitBreaker := { cbBoundary with stats := cbBoundary.stats.apply 12500 none }

/-- Second circuit-breaker step of `rmC2`. -/
def cbC2b : CircuitBreaker := { cbC2a with stats := cbC2a.stats.apply 11000 none }

lemma rmC2_circuit_breaker : rmC2.circuit_breaker = cbC2b := by
  show (cbBoundary.update_equity 0 0 12500 none).update_equity 0 1 11000 none = cbC2b
  rw [CircuitBreaker.update_equity_same_day cbBoundary 0 0 12500 none rfl]
  rw [CircuitBreaker.check_triggers_no_trip
    ({ cbBoundary with stats := cbBoundary.stats.apply 12500 none }) 0 (by decide)
    (by norm_num [cbBoundary, CircuitBreaker.mk_new, CircuitBreaker.init_equity,
      TradingStats.apply, TradingStats.daily_return])
    (by norm_num [cbBoundary, CircuitBreaker.mk_new, CircuitBreaker.init_equity,
      TradingStats.apply])]
  show cbC2a.update_equity 0 1 11000 none = cbC2b
  rw [CircuitBreaker.update_equity_same_day cbC2a 0 1 11000 none rfl]
  rw [CircuitBreaker.check_triggers_no_trip
    ({ cbC2a with stats := cbC2a.stats.apply 11000 none }) 1 (by decide)
    (by norm_num [cbC2a, cbBoundary, CircuitBreaker.mk_new, CircuitBreaker.init_equity,
      TradingStats.apply, TradingStats.daily_return])
    (by norm_num [cbC2a, cbBoundary, CircuitBreaker.mk_new, CircuitBreaker.init_equity,
      TradingStats.apply])]
  rfl

lemma rmC2_cb_can_trade : (rmC2.circuit_breaker.can_trade 100).1 = true := by
  rw [CircuitBreaker.can_trade_closed rmC2.circuit_breaker 100
    (by rw [rmC2_circuit_breaker]; rfl)]

lemma rmC2_dm_peak1 : (dmBase.update 12500).1.peak_equity = 12500 := by
  rw [DrawdownMonitor.update_peak]
  norm_num [dmBase, DrawdownMonitor.mk_new, DrawdownMonitor.init_equity]

lemma rmC2_drawdown : rmC2.drawdown_monitor.current_drawdown = 3/25 := by
  show (((dmBase.update 12500).1).update 11000).1.current_drawdown = 3/25
  rw [DrawdownMonitor.update_drawdown, rmC2_dm_peak1]
  norm_num

lemma rmC2_dm_exceeded1 : (dmBase.update 12500).1.exceeded = false := by
  cases hb : (dmBase.update 12500).1.exceeded with
  | false => rfl
  | true =>
    exfalso
    rcases (DrawdownMonitor.update_exceeded_iff dmBase 12500).mp hb with hc | hc
    · simp [dmBase, DrawdownMonitor.mk_new, DrawdownMonitor.init_equity] at hc
    · norm_num [dmBase, DrawdownMonitor.mk_new, DrawdownMonitor.init_equity] at hc

lemma rmC2_dm_exceeded : rmC2.drawdown_monitor.exceeded = false := by
  show (((dmBase.update 12500).1).update 11000).1.exceeded = false
  cases hb : (((dmBase.update 12500).1).update 11000).1.exceeded with
  | false => rfl
  | true =>
    exfalso
    rcases (DrawdownMonitor.update_exceeded_iff ((dmBase.update 12500).1) 11000).mp hb
      with hc | hc
    · rw [rmC2_dm_exceeded1] at hc
      exact absurd hc (by simp)
    · rw [rmC2_dm_peak1, DrawdownMonitor.update_config] at hc
      norm_num [dmBase, DrawdownMonitor.mk_new, DrawdownMonitor.init_equity] at hc

lemma rmC2_dm_can_trade : rmC2.drawdown_monitor.can_trade = true := by
  unfold DrawdownMonitor.can_trade
  rw [rmC2_dm_exceeded]
  simp

lemma rmC2_interval_ok :
    ¬((100:ℚ) - rmC2.last_order_time < rmC2.config.min_order_interval) := by
  norm_num [show rmC2.last_order_time = (0:ℚ) from rfl,
    show rmC2.config.min_order_interval = 1/2 from rfl]

lemma rmC2_rate_ok :
    ¬((rmC2.order_timestamps.filter fun t => (100:ℚ) - t < 60).length ≥
      rmC2.config.max_orders_per_minute) := by
  norm_num [show rmC2.order_timestamps = ([] : List ℚ) from rfl,
    show rmC2.config.max_orders_per_minute = 60 from rfl]

lemma rmC2_value_ok : ¬((1 : ℚ) * 1 > rmC2.config.max_order_value) := by
  norm_num [show rmC2.config.max_order_value = 1000 from rfl]

/-- Counterexample to C2: with the drawdown (12%) at or above the
critical-drawdown threshold (10%) and every rule passing, the accepted
result carries risk level HIGH, not CRITICAL as the claim states (and the
warning-threshold band likewise yields MEDIUM, not HIGH). -/
theorem risk_level_high_not_critical_at_critical_drawdown :
    rmC2.drawdown_monitor.current_drawdown ≥ rmC2.config.critical_drawdown ∧
    (rmC2.ptc1 100 symA sideLong 1 1 0 0).allowed = true ∧
    (rmC2.ptc1 100 symA sideLong 1 1 0 0).risk_level = .high ∧
    ¬((rmC2.ptc1 100 symA sideLong 1 1 0 0).risk_level = .critical) := by
  have hcrit : rmC2.drawdown_monitor.current_drawdown ≥ rmC2.config.critical_drawdown := by
    rw [rmC2_drawdown]
    norm_num [show rmC2.config.critical_drawdown = 10/100 from rfl]
  have hptc := rmC2.ptc1_all_pass 100 symA sideLong 1 1 0 0 rmC2_cb_can_trade
    rmC2_dm_can_trade rmC2_interval_ok rmC2_rate_ok rmC2_value_ok (not_zero_pos_and _)
  rw [if_pos hcrit] at hptc
  rw [hptc]
  exact ⟨hcrit, rfl, rfl, by simp⟩

/-- A configuration whose daily-loss, max-drawdown and max-slippage
thresholds are all negative. -/
def cfgNeg : RiskConfig :=
  ⟨-(3/100), 1/100, 5, 300, -(15/100), 5/100, 10/100, -(1/500), 1/1000, false,
   1/5, 1, 50000, 1/2, 60, true, true⟩

/-- Risk manager built from the negative-threshold configuration. -/
def rmNeg : RiskManager := (RiskManager.mk_new cfgNeg 0).init_equity 0 10000

/-- Counterexample to C9: the constructor accepts a configuration with
negative daily-loss, max-drawdown and max-slippage thresholds verbatim —
no error, no clamping — and the resulting instance is fully usable: a
benign `pre_trade_check` succeeds with `allowed = true`. -/
theorem negative_threshold_config_accepted :
    cfgNeg.daily_loss_threshold < 0 ∧
    cfgNeg.max_drawdown < 0 ∧
    cfgNeg.max_slippage < 0 ∧
    (RiskManager.mk_new cfgNeg 0).config = cfgNeg ∧
    (rmNeg.ptc1 100 symA sideLong 1 1 0 0).allowed = true := by
  refine ⟨by norm_num [cfgNeg], by norm_num [cfgNeg], by norm_num [cfgNeg], rfl, ?_⟩
  have hptc := rmNeg.ptc1_all_pass 100 symA sideLong 1 1 0 0 rfl rfl
    (by norm_num [show rmNeg.last_order_time = (0:ℚ) from rfl,
      show rmNeg.config.min_order_interval = 1/2 from rfl])
    (by norm_num [show rmNeg.order_timestamps = ([] : List ℚ) from rfl,
      show rmNeg.config.max_orders_per_minute = 60 from rfl])
    (by norm_num [show rmNeg.config.max_order_value = 50000 from rfl])
    (not_zero_pos_and _)
  rw [if_neg (by norm_num [show rmNeg.drawdown_monitor.current_drawdown = (0:ℚ) from rfl,
      show rmNeg.config.critical_drawdown = 10/100 from rfl])] at hptc
  rw [if_neg (by norm_num [show rmNeg.drawdown_monitor.current_drawdown = (0:ℚ) from rfl,
      show rmNeg.config.warning_drawdown = 5/100 from rfl])] at hptc
  rw [hptc]

/-- C9 (amended): construction never fails and performs no validation: every
configuration — including one with negative thresholds — is stored verbatim
in the manager and propagated verbatim into the sub-module configurations,
neither rejected nor clamped; invalid values are the caller's
responsibility. -/
theorem mk_new_accepts_any_config (config : RiskConfig) (today : ℕ) :
    (RiskManager.mk_new config today).config = config ∧
    (RiskManager.mk_new config today).circuit_breaker.config.daily_loss_threshold =
      config.daily_loss_threshold ∧
    (RiskManager.mk_new config today).drawdown_monitor.config.max_drawdown =
      config.max_drawdown ∧
    (RiskManager.mk_new config today).slippage_checker.config.max_slippage =
      config.max_slippage :=
  ⟨rfl, rfl, rfl, rfl⟩

/-- C10: with `total_equity ≤ 0` the position-fraction rule is skipped
entirely — the outcome does not depend on the side or the current position
value at all, and when the other five rules pass the order is allowed; with
`total_equity > 0` the order value is added to the projected position only
for side `"long"`: for any other side the cap tests
`current_position_value / total_equity` alone. -/
theorem position_cap_skipped_nonpositive_equity
    (rm : RiskManager) (now : ℚ) (sym sd sd2 : String) (q : ℤ) (p cpv cpv2 te : ℚ) :
    (te ≤ 0 →
      rm.pre_trade_check now sym sd q p cpv te =
        rm.pre_trade_check now sym sd2 q p cpv2 te) ∧
    (te ≤ 0 →
     (rm.circuit_breaker.can_trade now).1 = true →
     rm.drawdown_monitor.can_trade = true →
     ¬(now - rm.last_order_time < rm.config.min_order_interval) →
     ¬((rm.order_timestamps.filter fun t => now - t < 60).length ≥
       rm.config.max_orders_per_minute) →
     ¬((q : ℚ) * p > rm.config.max_order_value) →
      (rm.ptc1 now sym sd q p cpv te).allowed = true) ∧
    (te > 0 → sd ≠ "long" →
     (rm.circuit_breaker.can_trade now).1 = true →
     rm.drawdown_monitor.can_trade = true →
     ¬(now - rm.last_order_time < rm.config.min_order_interval) →
     ¬((rm.order_timestamps.filter fun t => now - t < 60).length ≥
       rm.config.max_orders_per_minute) →
     ¬((q : ℚ) * p > rm.config.max_order_value) →
      ((rm.ptc1 now sym sd q p cpv te).allowed = false ↔
        cpv / te > rm.config.max_position_pct)) ∧
    (te > 0 →
     (rm.circuit_breaker.can_trade now).1 = true →
     rm.drawdown_monitor.can_trade = true →
     ¬(now - rm.last_order_time < rm.config.min_order_interval) →
     ¬((rm.order_timestamps.filter fun t => now - t < 60).length ≥
       rm.config.max_orders_per_minute) →
     ¬((q : ℚ) * p > rm.config.max_order_value) →
      ((rm.ptc1 now sym sideLong q p cpv te).allowed = false ↔
        (cpv + (q : ℚ) * p) / te > rm.config.max_position_pct)) := by
  refine ⟨?_, ?_, ?_, ?_⟩
  · intro hte
    have hnte : ¬(te > 0) := not_lt.mpr hte
    simp only [RiskManager.pre_trade_check]
    simp [hnte]
  · intro hte h1 h2 h3 h4 h5
    rw [rm.ptc1_all_pass now sym sd q p cpv te h1 h2 h3 h4 h5
      (fun hc => absurd hc.1 (not_lt.mpr hte))]
    split_ifs <;> rfl
  · intro hte hsd h1 h2 h3 h4 h5
    by_cases hc : cpv / te > rm.config.max_position_pct
    · rw [rm.ptc1_reject_position now sym sd q p cpv te h1 h2 h3 h4 h5
        ⟨hte, by rw [if_neg hsd]; exact hc⟩]
      simp [hc]
    · rw [rm.ptc1_all_pass now sym sd q p cpv te h1 h2 h3 h4 h5
        (by rintro ⟨-, hx⟩; rw [if_neg hsd] at hx; exact hc hx)]
      split_ifs <;> simp [hc]
  · intro hte h1 h2 h3 h4 h5
    by_cases hc : (cpv + (q : ℚ) * p) / te > rm.config.max_position_pct
    · rw [rm.ptc1_reject_position now sym sideLong q p cpv te h1 h2 h3 h4 h5
        ⟨hte, by rw [if_pos (show sideLong = "long" from rfl)]; exact hc⟩]
      simp [hc]
    · rw [rm.ptc1_all_pass now sym sideLong q p cpv te h1 h2 h3 h4 h5
        (by rintro ⟨-, hx⟩; rw [if_pos (show sideLong = "long" from rfl)] at hx; exact hc hx)]
      split_ifs <;> simp [hc]

/-- Witness for C10 at the fresh manager with zero total equity. -/
theorem position_cap_skipped_nonpositive_equity_witness :
    (rmBase.ptc1 100 symA sideLong 1 1 0 0).allowed = true :=
  (position_cap_skipped_nonpositive_equity rmBase 100 symA sideLong sideLong 1 1 0 0 0).2.1
    (le_refl 0) rfl rfl rmBase_interval_ok rmBase_rate_ok rmBase_value_small_ok

end AITrader
